import Mathlib

/-!
Verification of the gtoolkit-maestro build/installer orchestrator.

This file shallowly embeds the data model and operations of the Rust
sources (`src/download.rs`, `src/zipping/unzip.rs`, `src/moving.rs`,
`src/application.rs`, `src/seed.rs`, `src/smalltalk/*`,
`src/tools/builder.rs`) as executable Lean definitions, and proves or
refutes the specification claims about them.  External collaborators
(the HTTP client, the file system, the `regex` and `zip` crates, path
canonicalization) are modelled as explicit oracle parameters; everything
the repository itself computes is translated structurally.
-/

namespace Maestro

/-- A file-system path, modelled as its list of components
(`/tmp/foo/Bar.image` is `⟨["tmp", "foo", "Bar.image"]⟩`).
Mirrors the subset of `std::path::PathBuf` behaviour the sources use. -/
structure RPath where
  components : List String
deriving DecidableEq, Repr

/-- `Path::parent`: drop the last component; `None` for an empty path. -/
def RPath.parent : RPath → Option RPath
  | ⟨[]⟩ => none
  | ⟨cs⟩ => some ⟨cs.dropLast⟩

/-- `Path::file_name`: the last component, if any. -/
def RPath.fileName : RPath → Option String
  | ⟨cs⟩ => cs.getLast?

/-- `Path::join` with a single extra component. -/
def RPath.join (p : RPath) (s : String) : RPath :=
  ⟨p.components ++ [s]⟩

/-- `Path::join` with a relative path. -/
def RPath.joinPath (p q : RPath) : RPath :=
  ⟨p.components ++ q.components⟩

/-- `Path::display`: render the absolute path as a string. -/
def RPath.display (p : RPath) : String :=
  "/" ++ String.intercalate "/" p.components

/-- The stem/extension split of a file name, following
`std::path::Path`: the name before resp. after the last dot, where a
dot may only count as a separator if it is not the first character of
the file name, and an empty name has neither stem nor extension. -/
def fileNameStemExt (name : String) : Option String × Option String :=
  match name.toList with
  | [] => (none, none)
  | c0 :: rest =>
    if rest.all (fun c => c ≠ '.') then
      (some name, none)
    else
      let revRest := rest.reverse
      let extChars := revRest.takeWhile (fun c => c ≠ '.')
      let stemChars := c0 :: (revRest.dropWhile (fun c => c ≠ '.')).tail.reverse
      (some (String.mk stemChars), some (String.mk extChars.reverse))

/-- `Path::file_stem` on our path model. -/
def RPath.fileStem (p : RPath) : Option String :=
  p.fileName.bind (fun n => (fileNameStemExt n).1)

/-- `Path::extension` on our path model. -/
def RPath.extension (p : RPath) : Option String :=
  p.fileName.bind (fun n => (fileNameStemExt n).2)

/-! ## FileRelocator: `FileToMove::find_file_matching` (src/moving.rs)

The `regex` crate is external: the compiled pattern is modelled as an
abstract Boolean matcher.  A directory listing is a list of entries,
each with a file name and an is-file flag (`entry.path().is_file()`). -/

/-- One entry of `tokio::fs::read_dir`. -/
structure DirEntry where
  name : String
  isFile : Bool
deriving DecidableEq, Repr

/-- The two distinguishable failures of `find_file_matching`, mirroring
the two distinct `Error { what }` messages built in src/moving.rs. -/
inductive FindFileError where
  /-- "Could not find a file matching {pattern} in {directory}" -/
  | noMatch (pattern : String) (directory : RPath)
  /-- "Found more than one file matching {pattern} in {directory}" -/
  | ambiguousMatch (pattern : String) (directory : RPath)
deriving DecidableEq, Repr

/-- The files of `entries` whose name matches the pattern, in listing
order: the `while let Some(entry) = entries.next_entry()` loop. -/
def matchingFiles (isMatch : String → Bool) (directory : RPath)
    (entries : List DirEntry) : List RPath :=
  (entries.filter (fun e => e.isFile && isMatch e.name)).map
    (fun e => directory.join e.name)

/-- `FileToMove::find_file_matching`: zero matches is a no-match error,
exactly one match is returned, two or more matches is an
ambiguous-match error. -/
def findFileMatching (isMatch : String → Bool) (pattern : String)
    (directory : RPath) (entries : List DirEntry) :
    Except FindFileError RPath :=
  match matchingFiles isMatch directory entries with
  | [] => .error (.noMatch pattern directory)
  | [m] => .ok m
  | _ => .error (.ambiguousMatch pattern directory)

/-! ## ScriptSequencer: `SmalltalkScriptsToExecute::execute`
(src/smalltalk/execution.rs)

Scripts are abstract (`Box<dyn ExecutableSmalltalk>`); the outcome of
`script.execute(evaluator)` is supplied by an oracle.  The model
returns the list of scripts that were actually executed, in order,
together with the first error if any. -/

/-- The sequential `for script in &self.scripts` loop with the `?`
early return: execute each script in order, stopping at the first
failure.  Returns the executed scripts (in order) and the first error. -/
def executeScripts {α E : Type} (outcome : α → Except E Unit) :
    List α → List α × Option E
  | [] => ([], none)
  | s :: rest =>
    match outcome s with
    | .error e => ([s], some e)
    | .ok _ =>
      let result := executeScripts outcome rest
      (s :: result.1, result.2)

/-! ## ConcurrentFetcher (src/download.rs)

`download_task` performs: URL parsing, a HEAD metadata probe (whose
non-success status is a hard error), output-file creation, the GET
request, a chunked streaming copy, and a final flush.  The network and
the file system are external, so each fallible effect's outcome is a
field of a `DownloadOutcome` oracle.  A chunk entry is either the
number of bytes read and written, or the streaming I/O error hit while
reading or writing that chunk. -/

/-- `FileToDownload { url, directory, file_name }`. -/
structure FileToDownload where
  url : String
  directory : RPath
  fileName : String
deriving DecidableEq, Repr

/-- `FileToDownload::path`. -/
def FileToDownload.path (f : FileToDownload) : RPath :=
  f.directory.join f.fileName

/-- The response of `client.head(url).send()`: an HTTP status code and
the optional parsed `Content-Length`. -/
structure HeadResponse where
  status : Nat
  contentLength : Option Nat
deriving DecidableEq, Repr

/-- `StatusCode::is_success`: 2xx. -/
def statusIsSuccess (status : Nat) : Bool :=
  200 ≤ status && status < 300

/-- The outcomes of the external effects one `download_task` performs,
in program order. -/
structure DownloadOutcome where
  /-- `Url::parse(&file_to_download.url)`: the parsed URL's rendering, or a parse error. -/
  parseUrl : Except String String
  /-- `client.head(url).send()`: transport error or the response. -/
  headSend : Except String HeadResponse
  /-- `tokio::fs::File::create(...)`. -/
  fileCreate : Except String Unit
  /-- `request.send()` for the GET. -/
  getSend : Except String Unit
  /-- The successive `download.chunk()` reads with their `outfile.write` results:
  bytes transferred, or the first streaming I/O error of that iteration. -/
  chunks : List (Except String Nat)
  /-- `outfile.flush()`. -/
  flush : Except String Unit

/-- The `while let Some(chunk) = download.chunk().await?` loop: adds up
chunk sizes (the per-task progress bar), propagating the first
streaming error. -/
def chunkLoop : List (Except String Nat) → Nat → Except String Nat
  | [], acc => .ok acc
  | c :: rest, acc =>
    match c with
    | .error e => .error e
    | .ok n => chunkLoop rest (acc + n)

/-- `download_task`: fails on URL-parse errors, HEAD transport errors,
a non-success HEAD status (with the "Couldn\x27t download URL" message),
file-creation errors, GET transport errors, any streaming chunk error,
and flush errors; succeeds otherwise. -/
def downloadTask (f : FileToDownload) (o : DownloadOutcome) :
    Except String Unit := do
  let url ← o.parseUrl
  let resp ← o.headSend
  let _downloadSize ←
    if statusIsSuccess resp.status then
      Except.ok (resp.contentLength.getD 0)
    else
      Except.error
        ("Couldn\x27t download URL: " ++ url ++ ". Error: " ++ toString resp.status)
  let _ ← o.fileCreate
  let _ ← o.getSend
  let _progress ← chunkLoop o.chunks 0
  o.flush
  -- the unused bindings mirror `download_size` and the progress bar,
  -- which the source computes but does not return

/-- `FilesToDownload { files }`. -/
structure FilesToDownload where
  files : List FileToDownload
deriving DecidableEq, Repr

/-- The body of the `for_each_concurrent` closure in
`FilesToDownload::download`: the spawned `download_task`'s join result
is bound to `_task` and dropped, and the aggregate progress bar is
incremented by one, whatever the task's outcome was. -/
def downloadDriverBody (outcome : FileToDownload → DownloadOutcome)
    (mainPb : Nat) (f : FileToDownload) : Nat :=
  let _task := downloadTask f (outcome f)
  mainPb + 1

/-- `FilesToDownload::download`: runs all tasks (their results are
discarded by the driver), then returns `Ok(multibar.await??)` — the
only error source of the returned value is joining the progress-bar
rendering thread, modelled by `progressJoin`.  The second component is
the final position of the aggregate progress bar. -/
def FilesToDownload.download (self : FilesToDownload)
    (outcome : FileToDownload → DownloadOutcome)
    (progressJoin : Except String Unit) : Except String Unit × Nat :=
  let counter := self.files.foldl (downloadDriverBody outcome) 0
  match progressJoin with
  | .ok _ => (.ok (), counter)
  | .error e => (.error e, counter)

/-! ### Interleaving model of `for_each_concurrent(Some(2), …)`

For the bounded-concurrency claim the fetch stage is modelled as a
small-step transition system: the stream hands tasks out in order, at
most two closures are in flight at once, and the aggregate counter is
incremented exactly when a task's closure completes. -/

/-- A state of the concurrent fetch: tasks not yet started (in stream
order), tasks currently running, and the aggregate progress counter. -/
structure FetchState where
  pending : List FileToDownload
  running : List FileToDownload
  completed : Nat
deriving DecidableEq, Repr

/-- The initial state for a list of download tasks. -/
def initFetchState (files : List FileToDownload) : FetchState :=
  ⟨files, [], 0⟩

/-- One scheduling step of `for_each_concurrent(Some(2), …)`: either
the next task of the stream starts (only while fewer than 2 are
running), or some running task completes, incrementing the aggregate
counter by one. -/
inductive FetchStep : FetchState → FetchState → Prop where
  | start (s : FetchState) (f : FileToDownload) (rest : List FileToDownload) :
      s.pending = f :: rest →
      s.running.length < 2 →
      FetchStep s ⟨rest, f :: s.running, s.completed⟩
  | finish (s : FetchState) (l₁ l₂ : List FileToDownload) (f : FileToDownload) :
      s.running = l₁ ++ f :: l₂ →
      FetchStep s ⟨s.pending, l₁ ++ l₂, s.completed + 1⟩

/-- Reachability of fetch states. -/
def FetchReachable (s t : FetchState) : Prop :=
  Relation.ReflTransGen FetchStep s t

/-! ## ArchiveExpander: `unzip_task` (src/zipping/unzip.rs)

The `zip` crate is external: an archive is a list of entries, each
carrying its raw name, the result of the crate's `enclosed_name`
safety check (`None` when the encoded path escapes the destination),
and the optional Unix permission bits.  The file-system writes the
loop performs are recorded as events. -/

/-- One central-directory entry as `unzip_task` sees it. -/
structure ZipEntry where
  /-- `file.name()`: the raw encoded name; a trailing `/` marks a directory. -/
  name : String
  /-- `file.enclosed_name()`: the sanitized relative path, or `None`
  when the name fails the stays-within-destination check. -/
  enclosedName : Option RPath
  /-- `file.unix_mode()`. -/
  unixMode : Option Nat
deriving DecidableEq, Repr

/-- A file-system effect of the extraction loop. -/
inductive FsEvent where
  | createDirAll (p : RPath)
  | writeFile (p : RPath)
  | setPermissions (p : RPath) (mode : Nat)
deriving DecidableEq, Repr

/-- `str::ends_with('/')`: does the name's last character mark a
directory entry? -/
def nameEndsWithSlash (s : String) : Bool :=
  s.toList.getLast? == some '/'

/-- The events one safe entry produces at its output path: a directory
entry (name ending in `/`) is created with `create_dir_all`, a file
entry is written with `File::create` + `io::copy`, and when the entry
carries a Unix mode the permissions are set afterwards. -/
def zipEntryEvents (outputPath : RPath) (entry : ZipEntry) : List FsEvent :=
  (if nameEndsWithSlash entry.name then
    [FsEvent.createDirAll outputPath]
  else
    [FsEvent.writeFile outputPath]) ++
  (match entry.unixMode with
   | some mode => [FsEvent.setPermissions outputPath mode]
   | none => [])

/-- The events a single loop iteration produces: an entry whose
`enclosed_name` is `None` is skipped by `continue`; otherwise the
entry is extracted under `output.join(path)`. -/
def zipEntryStep (output : RPath) (entry : ZipEntry) : List FsEvent :=
  match entry.enclosedName with
  | none => []
  | some path => zipEntryEvents (output.joinPath path) entry

/-- The `for i in 0..archive.len()` loop of `unzip_task`, returning the
recorded file-system events and the task's result. -/
def unzipLoop (output : RPath) : List ZipEntry → List FsEvent × Except String Unit
  | [] => ([], .ok ())
  | entry :: rest =>
    match entry.enclosedName with
    | none => unzipLoop output rest
    | some path =>
      let tail := unzipLoop output rest
      (zipEntryEvents (output.joinPath path) entry ++ tail.1, tail.2)

/-- `unzip_task` on an opened archive: run the extraction loop and
finish with `Ok(())`. -/
def unzipTask (output : RPath) (entries : List ZipEntry) :
    List FsEvent × Except String Unit :=
  unzipLoop output entries

/-! ## ScriptSequencer error payloads (src/smalltalk/smalltalk.rs,
src/smalltalk/expression.rs)

A `std::process::Command` is a program plus an argument list; its
`{:?}` debug rendering (what the error messages embed) quotes the
program and every argument. -/

/-- The subset of `std::process::Command` the error messages render. -/
structure RCommand where
  program : String
  args : List String
deriving DecidableEq, Repr

/-- The `{:?}` rendering of a `Command`: the quoted program followed by
each quoted argument, space separated. -/
def formatCommand (cmd : RCommand) : String :=
  String.intercalate " " ((cmd.program :: cmd.args).map (fun s => "\"" ++ s ++ "\""))

/-- `sub` occurs as a contiguous substring of `msg`. -/
def ContainsStr (msg sub : String) : Prop :=
  sub.toList <:+: msg.toList

instance (msg sub : String) : Decidable (ContainsStr msg sub) :=
  List.decidableInfix sub.toList msg.toList

/-- The default `ExecutableSmalltalk::execute` (src/smalltalk/smalltalk.rs
lines 9-27) after `create_command` produced `cmd`: on a non-zero exit
status it returns the error whose message embeds the full `{:?}` of
the command. -/
def executableSmalltalkExecute (cmd : RCommand) (exitSuccess : Bool) :
    Except String Unit :=
  if exitSuccess then
    .ok ()
  else
    .error ("Command " ++ formatCommand cmd ++
      " failed. See install.log or install-errors.log for more info")

/-- The per-step flags of a `SmalltalkEvaluator`. -/
structure EvalFlags where
  shouldQuit : Bool
  shouldSave : Bool
  interactive : Bool
deriving DecidableEq, Repr

/-- `ExpressionBuilder::build` / `SmalltalkExpressionBuilder::build`:
join the added expressions with a dot. -/
def expressionBuilderBuild : List String → String
  | [] => ""
  | [e] => e
  | e :: rest => e ++ "." ++ expressionBuilderBuild rest

/-- The expression actually handed to the interpreter: when the
evaluator wants saving, the snapshot directive is appended through
`ExpressionBuilder` (joined with a dot). -/
def expressionWithSave (flags : EvalFlags) (expression : String) : String :=
  if flags.shouldSave then
    expressionBuilderBuild [expression, "Smalltalk snapshot: true andQuit: false"]
  else
    expression

/-- The command `SmalltalkExpression::execute` constructs on top of the
evaluator's base command: `eval`, the quit and interactive flags, and
the (possibly save-suffixed) expression. -/
def expressionCommand (base : RCommand) (flags : EvalFlags)
    (expression : String) : RCommand :=
  { base with
    args := base.args ++
      ["eval",
       if flags.shouldQuit then "" else "--no-quit",
       if flags.interactive then "--interactive" else "",
       expressionWithSave flags expression] }

/-- `SmalltalkExpression::execute` (src/smalltalk/expression.rs lines
52-62): the command is fully constructed, but on a non-zero exit
status the returned error message is built from the expression text
alone. -/
def smalltalkExpressionExecute (base : RCommand) (flags : EvalFlags)
    (expression : String) (exitSuccess : Bool) : Except String Unit :=
  let _command := expressionCommand base flags expression
  if exitSuccess then
    .ok ()
  else
    .error ("Expression " ++ expression ++
      " failed. See install.log or install-errors.log for more info")

/-! ## WorkspaceDescriptor: `Application` (src/application.rs, src/seed.rs)

The version types wrap `feenk_releaser::Version`, an external crate;
they are modelled as their opaque rendered strings.  Path
canonicalization (`to_absolute::canonicalize`) touches the file system
and is passed in as an oracle. -/

/-- `ImageSeed`: how the initial snapshot is obtained. -/
inductive ImageSeed where
  | url (u : String)
  | zip (p : RPath)
  | image (p : RPath)
deriving DecidableEq, Repr

/-- `ImageSeed::seed_image_directory`: for an existing image it is the
image file's parent directory (`parent().expect(…)` panics when there
is none, modelled as `none`); otherwise `workspace/seed-image`. -/
def ImageSeed.seedImageDirectory (seed : ImageSeed) (workspace : RPath) :
    Option RPath :=
  match seed with
  | .image imageFile => imageFile.parent
  | _ => some (workspace.join "seed-image")

/-- The serializable state of `Application` (the workspace descriptor). -/
structure Application where
  verbose : Bool
  workspace : RPath
  appVersion : String
  appCliBinary : Option RPath
  imageVersion : String
  imageName : String
  imageExtension : String
  imageSeed : ImageSeed
deriving DecidableEq, Repr

/-- The errors `set_image_seed` can produce (src/error.rs), plus the
panic of `seed_image_directory` on a parentless seed path. -/
inductive SeedError where
  | noParentDirectory (p : RPath)
  | canonicalizeError (p : RPath)
  | failedToReadFileName (p : RPath)
  | failedToReadFileExtension (p : RPath)
deriving DecidableEq, Repr

/-- `Application::set_image_seed`: for the existing-image variant, the
workspace is reassigned to the canonicalized parent directory of the
seed file and the image name/extension are re-derived from the file's
stem and extension, failing hard when either is absent; for the other
variants only the seed field changes. -/
def setImageSeed (canonicalize : RPath → Except Unit RPath)
    (app : Application) (seed : ImageSeed) : Except SeedError Application :=
  match seed with
  | .image imageFile =>
    match seed.seedImageDirectory app.workspace with
    | none => .error (.noParentDirectory imageFile)
    | some seedImageDirectory =>
      match canonicalize seedImageDirectory with
      | .error _ => .error (.canonicalizeError seedImageDirectory)
      | .ok workspace =>
        let app := { app with workspace := workspace }
        match imageFile.fileStem with
        | none => .error (.failedToReadFileName imageFile)
        | some fileName =>
          match imageFile.extension with
          | none => .error (.failedToReadFileExtension imageFile)
          | some fileExtension =>
            .ok { app with
                  imageName := fileName,
                  imageExtension := fileExtension,
                  imageSeed := seed }
  | _ => .ok { app with imageSeed := seed }

/-! ### State-file serialization (C4)

`serialize_into_file` writes `serde_yaml::to_string(self)`;
`try_from_file` reads the file back through `serde_yaml::from_str` and
then overwrites the `workspace` field with the workspace it was given.
`serde_yaml` and the `Serialize`/`Deserialize` derives are external
crates; what the repository defines is the field structure, so the
codec is modelled at the YAML document level: the derive maps the
struct to a mapping with one key per field in declaration order, and
an enum newtype variant to a single-entry mapping. -/

/-- A YAML document (the fragment the descriptor uses). -/
inductive Yaml where
  | str (s : String)
  | bool (b : Bool)
  | path (p : RPath)
  | null
  | map (entries : List (String × Yaml))

/-- Key lookup in a YAML mapping. -/
def yamlGet (entries : List (String × Yaml)) (key : String) : Option Yaml :=
  (entries.find? (fun kv => kv.1 == key)).map (fun kv => kv.2)

/-- The derived `Serialize` for `ImageSeed`. -/
def imageSeedToYaml : ImageSeed → Yaml
  | .url u => .map [("Url", .str u)]
  | .zip p => .map [("Zip", .path p)]
  | .image p => .map [("Image", .path p)]

/-- The derived `Deserialize` for `ImageSeed`. -/
def imageSeedFromYaml : Yaml → Option ImageSeed
  | .map [("Url", .str u)] => some (.url u)
  | .map [("Zip", .path p)] => some (.zip p)
  | .map [("Image", .path p)] => some (.image p)
  | _ => none

/-- The derived `Serialize` for `Option<PathBuf>`. -/
def optPathToYaml : Option RPath → Yaml
  | none => .null
  | some p => .path p

/-- The derived `Deserialize` for `Option<PathBuf>`. -/
def optPathFromYaml : Yaml → Option (Option RPath)
  | .null => some none
  | .path p => some (some p)
  | _ => none

/-- The derived `Serialize` for `Application`: one mapping entry per
field, in declaration order. -/
def applicationToYaml (a : Application) : Yaml :=
  .map [("verbose", .bool a.verbose),
        ("workspace", .path a.workspace),
        ("app_version", .str a.appVersion),
        ("app_cli_binary", optPathToYaml a.appCliBinary),
        ("image_version", .str a.imageVersion),
        ("image_name", .str a.imageName),
        ("image_extension", .str a.imageExtension),
        ("image_seed", imageSeedToYaml a.imageSeed)]

/-- The derived `Deserialize` for `Application`. -/
def applicationFromYaml (y : Yaml) : Option Application :=
  match y with
  | .map entries => do
    let .bool verbose ← yamlGet entries "verbose" | none
    let .path workspace ← yamlGet entries "workspace" | none
    let .str appVersion ← yamlGet entries "app_version" | none
    let cliYaml ← yamlGet entries "app_cli_binary"
    let appCliBinary ← optPathFromYaml cliYaml
    let .str imageVersion ← yamlGet entries "image_version" | none
    let .str imageName ← yamlGet entries "image_name" | none
    let .str imageExtension ← yamlGet entries "image_extension" | none
    let seedYaml ← yamlGet entries "image_seed"
    let imageSeed ← imageSeedFromYaml seedYaml
    some ⟨verbose, workspace, appVersion, appCliBinary, imageVersion,
          imageName, imageExtension, imageSeed⟩
  | _ => none

/-- `SERIALIZATION_FILE`. -/
def serializationFileName : String := "gtoolkit.yaml"

/-- `Application::serialize_into_file`: the path and content of the one
state file written into the workspace. -/
def serializeIntoFile (a : Application) : RPath × Yaml :=
  (a.workspace.join serializationFileName, applicationToYaml a)

/-- `Application::try_from_file`: deserialize the state-file content
and overwrite the workspace field with the given workspace path. -/
def tryFromFile (workspace : RPath) (content : Yaml) : Option Application :=
  (applicationFromYaml content).map
    (fun application => { application with workspace := workspace })

/-! ## BuildPipeline: `Builder::build` and `BuildOptions::ssh_keys`
(src/tools/builder.rs)

`file.exists()` and `to_absolute::canonicalize` are file-system
effects, passed in as oracles. -/

/-- The key-related fields of `BuildOptions`. -/
structure BuildKeyOptions where
  publicKey : Option RPath
  privateKey : Option RPath
deriving DecidableEq, Repr

/-- The errors of `BuildOptions::ssh_keys` (src/error.rs). -/
inductive KeyError where
  | publicKeyDoesNotExist (p : RPath)
  | privateKeyDoesNotExist (p : RPath)
  | canonicalizeError (p : RPath)
  | sshKeysConfigurationError (privateKey publicKey : Option RPath)
deriving DecidableEq, Repr

/-- `BuildOptions::public_key`: `None` when not supplied; otherwise the
canonicalized path if the file exists, an error if it does not. -/
def publicKeyResolve (fileExists : RPath → Bool)
    (canonicalize : RPath → Except Unit RPath) (opts : BuildKeyOptions) :
    Except KeyError (Option RPath) :=
  match opts.publicKey with
  | none => .ok none
  | some key =>
    if fileExists key then
      match canonicalize key with
      | .ok p => .ok (some p)
      | .error _ => .error (.canonicalizeError key)
    else
      .error (.publicKeyDoesNotExist key)

/-- `BuildOptions::private_key`: same shape as `public_key`. -/
def privateKeyResolve (fileExists : RPath → Bool)
    (canonicalize : RPath → Except Unit RPath) (opts : BuildKeyOptions) :
    Except KeyError (Option RPath) :=
  match opts.privateKey with
  | none => .ok none
  | some key =>
    if fileExists key then
      match canonicalize key with
      | .ok p => .ok (some p)
      | .error _ => .error (.canonicalizeError key)
    else
      .error (.privateKeyDoesNotExist key)

/-- `BuildOptions::ssh_keys`: both keys or none; the returned pair is
`(private, public)`. -/
def sshKeys (fileExists : RPath → Bool)
    (canonicalize : RPath → Except Unit RPath) (opts : BuildKeyOptions) :
    Except KeyError (Option (RPath × RPath)) := do
  let publicKey ← publicKeyResolve fileExists canonicalize opts
  let privateKey ← privateKeyResolve fileExists canonicalize opts
  match privateKey, publicKey with
  | some pri, some pub => .ok (some (pri, pub))
  | none, none => .ok none
  | _, _ => .error (.sshKeysConfigurationError privateKey publicKey)

/-- The credentials expression `Builder::build` injects when SSH keys
were supplied (src/tools/builder.rs lines 421-431): the destructured
pair is `(private, public)` and the `format!` puts `private` into the
`publicKey:` slot and `public` into the `privateKey:` slot. -/
def credentialsExpression (keys : RPath × RPath) : String :=
  expressionBuilderBuild
    ["IceCredentialsProvider useCustomSsh: true",
     "IceCredentialsProvider sshCredentials publicKey: \x27" ++ keys.1.display ++
       "\x27; privateKey: \x27" ++ keys.2.display ++ "\x27"]

/-- The scripts of the toolkit-loading stage: the credentials
expression (when keys were supplied) ahead of the loader script. -/
def toolkitStageScripts (sshKeysResult : Option (RPath × RPath))
    (loaderScriptFileName : String) : List String :=
  (match sshKeysResult with
   | some keys => [credentialsExpression keys]
   | none => []) ++ [loaderScriptFileName]

/-! ### The build operation as a stage trace (C5)

`Builder::build` runs, in program order: `set_image_seed`,
`Checker::check` (which with `overwrite` deletes the existing
workspace directory, state file included, and recreates it),
`serialize_into_file`, the download stage, the unzip stage, the
conditional moving stage, and the script stages.  The stages that only
matter as barriers are collapsed to their `Except` outcomes; the
download stage reuses the `FilesToDownload.download` model.  The world
records whether the workspace currently holds the state file, and the
run emits an event per stage transition. -/

/-- Stage-transition events of one `Builder::build` run. -/
inductive BuildEvent where
  | imageSeedSet
  | checked
  | stateFileSerialized
  | downloadStageStarted
  | downloadStageFinished
  | unzipStageFinished
  | movingStageFinished
  | buildFinished
deriving DecidableEq, Repr

/-- The observable workspace state the claim is about. -/
structure BuildWorld where
  stateFileWritten : Bool
deriving DecidableEq, Repr

/-- Outcomes of the external effects of one `Builder::build` run. -/
structure BuildEnv where
  /-- `application.set_image_seed(image_seed)`. -/
  setImageSeedResult : Except String Unit
  /-- `build_options.should_overwrite()`. -/
  overwrite : Bool
  /-- `Checker::new().check(application, overwrite)`. -/
  checkResult : Except String Unit
  /-- `application.serialize_into_file()`. -/
  serializeResult : Except String Unit
  /-- The download tasks assembled for the run. -/
  downloadFiles : FilesToDownload
  /-- Per-task network/file-system outcomes. -/
  downloadOutcome : FileToDownload → DownloadOutcome
  /-- The progress-bar join of the download driver. -/
  downloadProgressJoin : Except String Unit
  /-- `files_to_unzip.unzip()`. -/
  unzipResult : Except String Unit
  /-- `image_seed.is_image_file()`: the moving stage is skipped for it. -/
  seedIsImageFile : Bool
  /-- The moving stage (seed adoption + sources relocation). -/
  movingResult : Except String Unit
  /-- Loader rendering, script creation and both script stages. -/
  scriptsResult : Except String Unit

/-- `Builder::build` as a trace: the emitted events, the final world,
and the error it returns, if any. -/
def builderBuild (env : BuildEnv) (w : BuildWorld) :
    List BuildEvent × BuildWorld × Option String :=
  match env.setImageSeedResult with
  | .error e => ([], w, some e)
  | .ok _ =>
    let ev₁ := [BuildEvent.imageSeedSet]
    -- with overwrite, check deletes the workspace directory first
    let w₁ : BuildWorld := if env.overwrite then ⟨false⟩ else w
    match env.checkResult with
    | .error e => (ev₁, w₁, some e)
    | .ok _ =>
      let ev₂ := ev₁ ++ [BuildEvent.checked]
      match env.serializeResult with
      | .error e => (ev₂, w₁, some e)
      | .ok _ =>
        let w₂ : BuildWorld := ⟨true⟩
        let ev₃ := ev₂ ++ [BuildEvent.stateFileSerialized]
        let ev₄ := ev₃ ++ [BuildEvent.downloadStageStarted]
        match (env.downloadFiles.download env.downloadOutcome
            env.downloadProgressJoin).1 with
        | .error e => (ev₄, w₂, some e)
        | .ok _ =>
          let ev₅ := ev₄ ++ [BuildEvent.downloadStageFinished]
          match env.unzipResult with
          | .error e => (ev₅, w₂, some e)
          | .ok _ =>
            let ev₆ := ev₅ ++ [BuildEvent.unzipStageFinished]
            match (if env.seedIsImageFile then Except.ok () else env.movingResult) with
            | .error e => (ev₆, w₂, some e)
            | .ok _ =>
              let ev₇ := ev₆ ++ [BuildEvent.movingStageFinished]
              match env.scriptsResult with
              | .error e => (ev₇, w₂, some e)
              | .ok _ => (ev₇ ++ [BuildEvent.buildFinished], w₂, none)

/-- Does the first of `stateFileSerialized` / `downloadStageStarted`
occurring in the trace come from the serialization (or does neither
occur)?  I.e.: the state file is persisted before any download task
starts. -/
def stateFilePersistedBeforeDownload : List BuildEvent → Bool
  | [] => true
  | BuildEvent.downloadStageStarted :: _ => false
  | BuildEvent.stateFileSerialized :: _ => true
  | _ :: rest => stateFilePersistedBeforeDownload rest

/-! ## Sample values used by the witnesses -/

/-- A sample workspace descriptor with the default image naming. -/
def sampleApplication : Application :=
  { verbose := false,
    workspace := ⟨["workspace"]⟩,
    appVersion := "0.7.1",
    appCliBinary := none,
    imageVersion := "0.8.0",
    imageName := "GlamorousToolkit",
    imageExtension := "image",
    imageSeed := .url "https://dl.feenk.com/pharo/Pharo9.0-SNAPSHOT.build.1532.sha.f7b3431.arch.64bit.zip" }

/-- Five download tasks, as in the five-task scenario of the spec. -/
def fetchFiles5 : List FileToDownload :=
  [⟨"https://example.com/gt.zip", ⟨["ws"]⟩, "GlamorousToolkit.zip"⟩,
   ⟨"https://example.com/vm.zip", ⟨["ws"]⟩, "GlamorousToolkit-vm.zip"⟩,
   ⟨"https://example.com/pharo-vm.zip", ⟨["ws"]⟩, "pharo-vm.zip"⟩,
   ⟨"https://example.com/seed.zip", ⟨["ws"]⟩, "seed-image.zip"⟩,
   ⟨"https://example.com/sources.zip", ⟨["ws"]⟩, "sources.zip"⟩]

/-- A download-task oracle whose HEAD metadata probe answers 404. -/
def outcome404 : DownloadOutcome :=
  { parseUrl := .ok "https://example.com/gt.zip",
    headSend := .ok ⟨404, none⟩,
    fileCreate := .ok (),
    getSend := .ok (),
    chunks := [],
    flush := .ok () }

/-- A build run whose stages all succeed except the download stage,
whose driver fails when joining the progress-bar renderer. -/
def sampleBuildEnv : BuildEnv :=
  { setImageSeedResult := .ok (),
    overwrite := false,
    checkResult := .ok (),
    serializeResult := .ok (),
    downloadFiles := ⟨[⟨"https://example.com/gt.zip", ⟨["ws"]⟩, "GlamorousToolkit.zip"⟩]⟩,
    downloadOutcome := fun _ => outcome404,
    downloadProgressJoin := .error "progress bar join failed",
    unzipResult := .ok (),
    seedIsImageFile := false,
    movingResult := .ok (),
    scriptsResult := .ok () }

/-! ## Theorems -/

/-- C6: for every pattern and directory listing, `find_file_matching`
returns a no-match error when zero files match (in particular for an
empty directory), the unique matching file when exactly one matches,
and the distinct ambiguous-match error when two or more match; the two
error cases are distinguishable. -/
theorem c6_find_one_trichotomy (isMatch : String → Bool) (pattern : String)
    (directory : RPath) (entries : List DirEntry) :
    (matchingFiles isMatch directory entries = [] →
      findFileMatching isMatch pattern directory entries =
        .error (.noMatch pattern directory)) ∧
    (∀ m, matchingFiles isMatch directory entries = [m] →
      findFileMatching isMatch pattern directory entries = .ok m) ∧
    (2 ≤ (matchingFiles isMatch directory entries).length →
      findFileMatching isMatch pattern directory entries =
        .error (.ambiguousMatch pattern directory)) ∧
    (∀ p₁ d₁ p₂ d₂, FindFileError.noMatch p₁ d₁ ≠ FindFileError.ambiguousMatch p₂ d₂) := by
  refine ⟨?_, ?_, ?_, ?_⟩
  · intro h
    unfold findFileMatching
    rw [h]
  · intro m h
    unfold findFileMatching
    rw [h]
  · intro h
    unfold findFileMatching
    rcases hm : matchingFiles isMatch directory entries with _ | ⟨a, _ | ⟨b, rest⟩⟩
    · rw [hm] at h; simp at h
    · rw [hm] at h; simp at h
    · rfl
  · intro p₁ d₁ p₂ d₂ h
    cases h

/-- Witness for C6: an empty directory yields the no-match error, a
single `.sources` file is returned, two `.sources` files yield the
ambiguous-match error. -/
theorem c6_find_one_trichotomy_witness :
    findFileMatching (fun n => n == "Pharo.sources" || n == "Other.sources") "*.sources" ⟨["ws"]⟩ [] =
      .error (.noMatch "*.sources" ⟨["ws"]⟩) ∧
    findFileMatching (fun n => n == "Pharo.sources" || n == "Other.sources") "*.sources" ⟨["ws"]⟩
      [⟨"Pharo.sources", true⟩] = .ok ⟨["ws", "Pharo.sources"]⟩ ∧
    findFileMatching (fun n => n == "Pharo.sources" || n == "Other.sources") "*.sources" ⟨["ws"]⟩
      [⟨"Pharo.sources", true⟩, ⟨"Other.sources", true⟩] =
      .error (.ambiguousMatch "*.sources" ⟨["ws"]⟩) := by
  refine ⟨?_, ?_, ?_⟩
  · exact (c6_find_one_trichotomy (fun n => n == "Pharo.sources" || n == "Other.sources") "*.sources"
      ⟨["ws"]⟩ []).1 (by decide)
  · exact (c6_find_one_trichotomy (fun n => n == "Pharo.sources" || n == "Other.sources") "*.sources"
      ⟨["ws"]⟩ [⟨"Pharo.sources", true⟩]).2.1 ⟨["ws", "Pharo.sources"]⟩ (by decide)
  · exact (c6_find_one_trichotomy (fun n => n == "Pharo.sources" || n == "Other.sources") "*.sources"
      ⟨["ws"]⟩ [⟨"Pharo.sources", true⟩, ⟨"Other.sources", true⟩]).2.2.1 (by decide)

/-- C2: the script sequencer executes steps strictly in the supplied
order; when step k is the first to fail, steps 1..k-1 have executed
(and succeeded), the sequencer returns step k's error, and the later
steps are never executed: the executed trace is exactly the first k
steps. -/
theorem c2_sequencer_halts_on_first_failure {α E : Type}
    (outcome : α → Except E Unit) (pre : List α) (s : α) (post : List α)
    (e : E) (hpre : ∀ t ∈ pre, outcome t = .ok ())
    (hs : outcome s = .error e) :
    executeScripts outcome (pre ++ s :: post) = (pre ++ [s], some e) := by
  induction pre with
  | nil =>
    simp only [List.nil_append]
    unfold executeScripts
    rw [hs]
  | cons a rest ih =>
    have ha : outcome a = .ok () := hpre a (by simp)
    have ihr := ih (fun t ht => hpre t (by simp [ht]))
    simp only [List.cons_append]
    unfold executeScripts
    rw [ha, ihr]

/-- Witness for C2: five steps of which the third fails: the first two
run and succeed, the third's error is returned, the last two never run. -/
theorem c2_sequencer_halts_on_first_failure_witness :
    executeScripts
      (fun t => match t with
        | "load-gt.st" => Except.error "exit status 1"
        | _ => Except.ok ())
      (["load-patches.st", "load-taskit.st"] ++ "load-gt.st" :: ["start-world.st", "extra.st"]) =
      (["load-patches.st", "load-taskit.st"] ++ ["load-gt.st"], some "exit status 1") := by
  exact c2_sequencer_halts_on_first_failure
    (fun t => match t with
      | "load-gt.st" => Except.error "exit status 1"
      | _ => Except.ok ())
    ["load-patches.st", "load-taskit.st"] "load-gt.st" ["start-world.st", "extra.st"]
    "exit status 1" (by intro t ht; fin_cases ht <;> rfl) rfl

/-- C4: saving a descriptor to the state file and loading a descriptor
back from the same workspace path yields a descriptor equal to the
original (in particular its two version fields, image name, image
extension and image-seed variant are unchanged). -/
theorem c4_descriptor_roundtrip (a : Application) :
    tryFromFile a.workspace (serializeIntoFile a).2 = some a := by
  rcases a with ⟨verbose, workspace, appVersion, appCliBinary, imageVersion,
    imageName, imageExtension, imageSeed⟩
  cases appCliBinary <;> cases imageSeed <;> rfl

/-- C3: `set_image_seed` with the existing-image variant reassigns the
workspace to the canonicalized parent directory of the seed file and
re-derives the image name and extension from the seed file's stem and
extension; a seed path lacking a parseable stem or extension is a hard
error. -/
theorem c3_set_image_seed_existing_image
    (canonicalize : RPath → Except Unit RPath) (app : Application)
    (imageFile dir ws : RPath)
    (hparent : imageFile.parent = some dir)
    (hcanon : canonicalize dir = .ok ws) :
    (∀ stem ext, imageFile.fileStem = some stem → imageFile.extension = some ext →
      setImageSeed canonicalize app (.image imageFile) =
        .ok { app with
               workspace := ws
               imageName := stem
               imageExtension := ext
               imageSeed := .image imageFile }) ∧
    (imageFile.fileStem = none →
      setImageSeed canonicalize app (.image imageFile) =
        .error (.failedToReadFileName imageFile)) ∧
    (∀ stem, imageFile.fileStem = some stem → imageFile.extension = none →
      setImageSeed canonicalize app (.image imageFile) =
        .error (.failedToReadFileExtension imageFile)) := by
  refine ⟨?_, ?_, ?_⟩
  · intro stem ext hstem hext
    simp only [setImageSeed, ImageSeed.seedImageDirectory, hparent, hcanon, hstem, hext]
  · intro hstem
    simp only [setImageSeed, ImageSeed.seedImageDirectory, hparent, hcanon, hstem]
  · intro stem hstem hext
    simp only [setImageSeed, ImageSeed.seedImageDirectory, hparent, hcanon, hstem, hext]

/-- Witness for C3: `set_image_seed(FromExistingImage("/tmp/foo/Bar.image"))`
(with the identity canonicalization oracle) sets
`workspace="/tmp/foo"`, `image_name="Bar"`, `image_extension="image"`;
and a seed file without an extension ("/tmp/foo/Bar") is a hard error. -/
theorem c3_set_image_seed_existing_image_witness :
    setImageSeed (fun p => .ok p) sampleApplication
      (.image ⟨["tmp", "foo", "Bar.image"]⟩) =
      .ok { sampleApplication with
             workspace := ⟨["tmp", "foo"]⟩
             imageName := "Bar"
             imageExtension := "image"
             imageSeed := .image ⟨["tmp", "foo", "Bar.image"]⟩ } ∧
    setImageSeed (fun p => .ok p) sampleApplication
      (.image ⟨["tmp", "foo", "Bar"]⟩) =
      .error (.failedToReadFileExtension ⟨["tmp", "foo", "Bar"]⟩) := by
  constructor
  · exact (c3_set_image_seed_existing_image (fun p => .ok p) sampleApplication
      ⟨["tmp", "foo", "Bar.image"]⟩ ⟨["tmp", "foo"]⟩ ⟨["tmp", "foo"]⟩
      (by decide) rfl).1 "Bar" "image" (by decide) (by decide)
  · exact (c3_set_image_seed_existing_image (fun p => .ok p) sampleApplication
      ⟨["tmp", "foo", "Bar"]⟩ ⟨["tmp", "foo"]⟩ ⟨["tmp", "foo"]⟩
      (by decide) rfl).2.2 "Bar" (by decide) (by decide)

/-- C7: an archive entry whose encoded path fails the
stays-within-destination check is skipped without error and without
aborting the archive: removing such an entry does not change the
task's behaviour at all, every safe entry's effects still happen, and
the task result is success regardless. -/
theorem c7_unzip_skips_unsafe_entries (output : RPath) (entries : List ZipEntry) :
    (unzipTask output entries).2 = .ok () ∧
    (∀ e, e.enclosedName = none →
      unzipTask output (e :: entries) = unzipTask output entries) ∧
    (∀ e ∈ entries, ∀ p, e.enclosedName = some p →
      ∀ ev ∈ zipEntryEvents (output.joinPath p) e, ev ∈ (unzipTask output entries).1) := by
  refine ⟨?_, ?_, ?_⟩
  · induction entries with
    | nil => rfl
    | cons a rest ih =>
      unfold unzipTask unzipLoop
      cases ha : a.enclosedName with
      | none => exact ih
      | some p => simpa using ih
  · intro e he
    show unzipLoop output (e :: entries) = unzipLoop output entries
    simp only [unzipLoop, he]
  · induction entries with
    | nil => intro e he; cases he
    | cons a rest ih =>
      intro e he p hp ev hev
      rcases List.mem_cons.mp he with rfl | hmem
      · unfold unzipTask unzipLoop
        rw [hp]
        exact List.mem_append_left _ hev
      · have hrec := ih e hmem p hp ev hev
        unfold unzipTask unzipLoop
        cases ha : a.enclosedName with
        | none => exact hrec
        | some q => exact List.mem_append_right _ hrec

/-- Witness for C7: an archive with a safe file, a path-escaping entry
(`../../etc/passwd`, no enclosed name) and a further safe file: the
escaping entry is dropped without effect, both safe entries are
extracted, and the task succeeds. -/
theorem c7_unzip_skips_unsafe_entries_witness :
    (unzipTask ⟨["ws"]⟩
      [⟨"bin/", some ⟨["bin"]⟩, none⟩,
       ⟨"../../etc/passwd", none, none⟩,
       ⟨"bin/GlamorousToolkit-cli", some ⟨["bin", "GlamorousToolkit-cli"]⟩, some 493⟩]).2
      = .ok () ∧
    unzipTask ⟨["ws"]⟩
      (⟨"../../etc/passwd", none, none⟩ ::
        [⟨"bin/GlamorousToolkit-cli", some ⟨["bin", "GlamorousToolkit-cli"]⟩, some 493⟩]) =
      unzipTask ⟨["ws"]⟩
        [⟨"bin/GlamorousToolkit-cli", some ⟨["bin", "GlamorousToolkit-cli"]⟩, some 493⟩] ∧
    FsEvent.writeFile ⟨["ws", "bin", "GlamorousToolkit-cli"]⟩ ∈
      (unzipTask ⟨["ws"]⟩
        [⟨"bin/", some ⟨["bin"]⟩, none⟩,
         ⟨"../../etc/passwd", none, none⟩,
         ⟨"bin/GlamorousToolkit-cli", some ⟨["bin", "GlamorousToolkit-cli"]⟩, some 493⟩]).1 := by
  refine ⟨?_, ?_, ?_⟩
  · exact (c7_unzip_skips_unsafe_entries ⟨["ws"]⟩
      [⟨"bin/", some ⟨["bin"]⟩, none⟩,
       ⟨"../../etc/passwd", none, none⟩,
       ⟨"bin/GlamorousToolkit-cli", some ⟨["bin", "GlamorousToolkit-cli"]⟩, some 493⟩]).1
  · exact (c7_unzip_skips_unsafe_entries ⟨["ws"]⟩
      [⟨"bin/GlamorousToolkit-cli", some ⟨["bin", "GlamorousToolkit-cli"]⟩, some 493⟩]).2.1
      ⟨"../../etc/passwd", none, none⟩ rfl
  · exact (c7_unzip_skips_unsafe_entries ⟨["ws"]⟩
      [⟨"bin/", some ⟨["bin"]⟩, none⟩,
       ⟨"../../etc/passwd", none, none⟩,
       ⟨"bin/GlamorousToolkit-cli", some ⟨["bin", "GlamorousToolkit-cli"]⟩, some 493⟩]).2.2
      ⟨"bin/GlamorousToolkit-cli", some ⟨["bin", "GlamorousToolkit-cli"]⟩, some 493⟩
      (by decide) ⟨["bin", "GlamorousToolkit-cli"]⟩ rfl
      (FsEvent.writeFile ⟨["ws", "bin", "GlamorousToolkit-cli"]⟩) (by decide)

/-- C10: when both a public-key path and a private-key path are
supplied and both files exist, `ssh_keys` returns the canonicalized
pair `(private, public)`, and the credentials expression injected
ahead of the loader script interpolates the private key path into the
`publicKey:` slot and the public key path into the `privateKey:` slot. -/
theorem c10_ssh_credentials_swapped_interpolation
    (fileExists : RPath → Bool) (canonicalize : RPath → Except Unit RPath)
    (opts : BuildKeyOptions) (pub pri cpub cpri : RPath) (loader : String)
    (hpub : opts.publicKey = some pub) (hpri : opts.privateKey = some pri)
    (hpube : fileExists pub = true) (hprie : fileExists pri = true)
    (hpubc : canonicalize pub = .ok cpub) (hpric : canonicalize pri = .ok cpri) :
    sshKeys fileExists canonicalize opts = .ok (some (cpri, cpub)) ∧
    toolkitStageScripts (some (cpri, cpub)) loader =
      ["IceCredentialsProvider useCustomSsh: true." ++
        ("IceCredentialsProvider sshCredentials publicKey: \x27" ++ cpri.display ++
          "\x27; privateKey: \x27" ++ cpub.display ++ "\x27"),
       loader] := by
  constructor
  · simp only [sshKeys, publicKeyResolve, privateKeyResolve, hpub, hpri, hpube,
      hprie, hpubc, hpric, if_true, Except.bind]
    rfl
  · rfl

/-- Witness for C10: concrete key paths `/home/u/.ssh/id_rsa.pub` and
`/home/u/.ssh/id_rsa` (identity canonicalization): the injected
expression puts the private path after `publicKey:` and the public
path after `privateKey:`. -/
theorem c10_ssh_credentials_swapped_interpolation_witness :
    sshKeys (fun _ => true) (fun p => .ok p)
      ⟨some ⟨["home", "u", ".ssh", "id_rsa.pub"]⟩,
       some ⟨["home", "u", ".ssh", "id_rsa"]⟩⟩ =
      .ok (some (⟨["home", "u", ".ssh", "id_rsa"]⟩, ⟨["home", "u", ".ssh", "id_rsa.pub"]⟩)) ∧
    toolkitStageScripts
      (some (⟨["home", "u", ".ssh", "id_rsa"]⟩, ⟨["home", "u", ".ssh", "id_rsa.pub"]⟩))
      "load-gt-main.st" =
      ["IceCredentialsProvider useCustomSsh: true." ++
        "IceCredentialsProvider sshCredentials publicKey: \x27" ++ "/home/u/.ssh/id_rsa" ++
        "\x27; privateKey: \x27" ++ "/home/u/.ssh/id_rsa.pub" ++ "\x27",
       "load-gt-main.st"] := by
  have h := c10_ssh_credentials_swapped_interpolation (fun _ => true) (fun p => .ok p)
    ⟨some ⟨["home", "u", ".ssh", "id_rsa.pub"]⟩, some ⟨["home", "u", ".ssh", "id_rsa"]⟩⟩
    ⟨["home", "u", ".ssh", "id_rsa.pub"]⟩ ⟨["home", "u", ".ssh", "id_rsa"]⟩
    ⟨["home", "u", ".ssh", "id_rsa.pub"]⟩ ⟨["home", "u", ".ssh", "id_rsa"]⟩
    "load-gt-main.st" rfl rfl rfl rfl rfl rfl
  refine ⟨h.1, h.2.trans ?_⟩
  rfl

/-- Helper: the aggregate-progress fold of the download driver
advances by one per task, whatever the tasks' outcomes. -/
theorem download_foldl_counter (outcome : FileToDownload → DownloadOutcome) :
    ∀ (files : List FileToDownload) (acc : Nat),
      files.foldl (downloadDriverBody outcome) acc = acc + files.length := by
  intro files
  induction files with
  | nil => intro acc; simp
  | cons f rest ih =>
    intro acc
    simp only [List.foldl_cons, downloadDriverBody, ih, List.length_cons]
    omega

/-- Helper: the chunk-streaming loop propagates the first streaming
error. -/
theorem chunkLoop_first_error (e : String) (post : List (Except String Nat)) :
    ∀ (pre : List (Except String Nat)) (acc : Nat),
      (∀ c ∈ pre, ∃ n, c = .ok n) →
      chunkLoop (pre ++ .error e :: post) acc = .error e := by
  intro pre
  induction pre with
  | nil => intro acc _; rfl
  | cons c rest ih =>
    intro acc hok
    rcases hok c (by simp) with ⟨n, rfl⟩
    simpa [chunkLoop] using ih (acc + n) (fun d hd => hok d (by simp [hd]))

/-- Counterexample to C1: a task whose HEAD metadata probe answers 404
fails as described, and yet the whole `download()` call returns
success, not an error: the fan-out driver discards the spawned task's
join result (`let _task = … .await;`). -/
theorem c1_download_failure_not_propagated_counterexample :
    downloadTask ⟨"https://example.com/gt.zip", ⟨["ws"]⟩, "GlamorousToolkit.zip"⟩ outcome404 =
      .error "Couldn\x27t download URL: https://example.com/gt.zip. Error: 404" ∧
    (FilesToDownload.download ⟨[⟨"https://example.com/gt.zip", ⟨["ws"]⟩, "GlamorousToolkit.zip"⟩]⟩
        (fun _ => outcome404) (.ok ())).1 = .ok () := by
  exact ⟨rfl, rfl⟩

/-- C1 (amended): a non-success metadata probe or a streaming I/O
error does fail the individual `download_task`, but the driver
discards every task's result: provided the progress-bar join succeeds,
`download()` returns success whatever the tasks did, and the aggregate
counter still reaches the number of tasks. -/
theorem c1_amended_driver_discards_task_failures
    (files : List FileToDownload) (outcome : FileToDownload → DownloadOutcome) :
    (∀ (f : FileToDownload) (o : DownloadOutcome) (url : String) (resp : HeadResponse),
      o.parseUrl = .ok url → o.headSend = .ok resp →
      statusIsSuccess resp.status = false →
      downloadTask f o = .error
        ("Couldn\x27t download URL: " ++ url ++ ". Error: " ++ toString resp.status)) ∧
    (∀ (f : FileToDownload) (o : DownloadOutcome) (url : String) (resp : HeadResponse)
      (e : String) (pre post : List (Except String Nat)),
      o.parseUrl = .ok url → o.headSend = .ok resp →
      statusIsSuccess resp.status = true →
      o.fileCreate = .ok () → o.getSend = .ok () →
      o.chunks = pre ++ .error e :: post →
      (∀ c ∈ pre, ∃ n, c = .ok n) →
      downloadTask f o = .error e) ∧
    (FilesToDownload.download ⟨files⟩ outcome (.ok ())).1 = .ok () ∧
    (FilesToDownload.download ⟨files⟩ outcome (.ok ())).2 = files.length := by
  refine ⟨?_, ?_, ?_, ?_⟩
  · intro f o url resp hparse hhead hbad
    simp only [downloadTask, hparse, hhead, Bind.bind, Except.instMonad, Except.bind]
    rw [hbad]
    rfl
  · intro f o url resp e pre post hparse hhead hgood hcreate hget hchunks hok
    simp only [downloadTask, hparse, hhead, hcreate, hget, hchunks, Bind.bind,
      Except.instMonad, Except.bind]
    rw [hgood, chunkLoop_first_error e post pre 0 hok]
    rfl
  · simp [FilesToDownload.download]
  · simp [FilesToDownload.download, download_foldl_counter]

/-- Witness for C1 (amended): one task with a 404 probe: the task
fails, the driver still reports success and counts the task as done. -/
theorem c1_amended_driver_discards_task_failures_witness :
    downloadTask ⟨"https://example.com/gt.zip", ⟨["ws"]⟩, "GlamorousToolkit.zip"⟩ outcome404 =
      .error "Couldn\x27t download URL: https://example.com/gt.zip. Error: 404" ∧
    (FilesToDownload.download ⟨[⟨"https://example.com/gt.zip", ⟨["ws"]⟩, "GlamorousToolkit.zip"⟩]⟩
        (fun _ => outcome404) (.ok ())).1 = .ok () ∧
    (FilesToDownload.download ⟨[⟨"https://example.com/gt.zip", ⟨["ws"]⟩, "GlamorousToolkit.zip"⟩]⟩
        (fun _ => outcome404) (.ok ())).2 = 1 := by
  have h := c1_amended_driver_discards_task_failures
    [⟨"https://example.com/gt.zip", ⟨["ws"]⟩, "GlamorousToolkit.zip"⟩] (fun _ => outcome404)
  exact ⟨(h.1 ⟨"https://example.com/gt.zip", ⟨["ws"]⟩, "GlamorousToolkit.zip"⟩ outcome404
      "https://example.com/gt.zip" ⟨404, none⟩ rfl rfl rfl).trans (by rfl),
    h.2.2.1, h.2.2.2⟩

/-- Counterexample to C8: an expression step whose process exits
non-zero returns an error that carries only the expression text — the
executable and arguments of the fully-constructed command line do not
occur in in the message. -/
theorem c8_expression_error_lacks_command_line_counterexample :
    smalltalkExpressionExecute
      ⟨"/ws/bin/GlamorousToolkit-cli", ["GlamorousToolkit.image"]⟩
      ⟨true, false, false⟩ "1 + 2" false =
      .error "Expression 1 + 2 failed. See install.log or install-errors.log for more info" ∧
    ¬ ContainsStr
      "Expression 1 + 2 failed. See install.log or install-errors.log for more info"
      "GlamorousToolkit-cli" := by
  refine ⟨rfl, ?_⟩
  set_option maxRecDepth 10000 in decide

/-- C8 (amended): steps run through the default
`ExecutableSmalltalk::execute` return, on non-zero exit, an error
whose message embeds the fully-constructed command line; but
`SmalltalkExpression::execute` overrides it and returns an error built
from the expression text alone (even though it constructed the full
command). -/
theorem c8_amended_error_payloads (cmd base : RCommand) (flags : EvalFlags)
    (expression : String) :
    executableSmalltalkExecute cmd false =
      .error ("Command " ++ formatCommand cmd ++
        " failed. See install.log or install-errors.log for more info") ∧
    ContainsStr
      ("Command " ++ formatCommand cmd ++
        " failed. See install.log or install-errors.log for more info")
      (formatCommand cmd) ∧
    smalltalkExpressionExecute base flags expression false =
      .error ("Expression " ++ expression ++
        " failed. See install.log or install-errors.log for more info") := by
  refine ⟨rfl, ?_, rfl⟩
  exact ⟨"Command ".toList,
    (" failed. See install.log or install-errors.log for more info").toList, rfl⟩

/-- C5: in every run of the build operation, the descriptor is
serialized to the state file after the image seed is resolved and
before any download task starts; consequently, whenever the build
reaches the download stage at all — in particular whenever it returns
a download-stage error — the workspace holds the state file at return,
and a download-stage failure returns that error with the state file
present. -/
theorem c5_state_file_persisted_before_download (env : BuildEnv) (w : BuildWorld) :
    stateFilePersistedBeforeDownload (builderBuild env w).1 = true ∧
    (BuildEvent.downloadStageStarted ∈ (builderBuild env w).1 →
      (builderBuild env w).2.1.stateFileWritten = true) ∧
    (∀ e, env.setImageSeedResult = .ok () → env.checkResult = .ok () →
      env.serializeResult = .ok () →
      (env.downloadFiles.download env.downloadOutcome env.downloadProgressJoin).1 =
        .error e →
      builderBuild env w =
        ([.imageSeedSet, .checked, .stateFileSerialized, .downloadStageStarted],
         ⟨true⟩, some e)) := by
  rcases hs : env.setImageSeedResult with es | u
  · refine ⟨?_, ?_, ?_⟩
    · simp [builderBuild, hs, stateFilePersistedBeforeDownload]
    · intro hmem
      simp [builderBuild, hs] at hmem
    · intro e h1 _ _ _
      exact Except.noConfusion h1
  · cases u
    rcases hc : env.checkResult with ec | u
    · refine ⟨?_, ?_, ?_⟩
      · simp [builderBuild, hs, hc, stateFilePersistedBeforeDownload]
      · intro hmem
        simp [builderBuild, hs, hc] at hmem
      · intro e _ h2 _ _
        exact Except.noConfusion h2
    · cases u
      rcases hz : env.serializeResult with ez | u
      · refine ⟨?_, ?_, ?_⟩
        · simp [builderBuild, hs, hc, hz, stateFilePersistedBeforeDownload]
        · intro hmem
          simp [builderBuild, hs, hc, hz] at hmem
        · intro e _ _ h3 _
          exact Except.noConfusion h3
      · cases u
        rcases hd : (env.downloadFiles.download env.downloadOutcome
            env.downloadProgressJoin).1 with ed | u
        · refine ⟨?_, ?_, ?_⟩
          · simp [builderBuild, hs, hc, hz, hd, stateFilePersistedBeforeDownload]
          · intro _
            simp [builderBuild, hs, hc, hz, hd]
          · intro e _ _ _ h4
            cases h4
            simp [builderBuild, hs, hc, hz, hd]
        · cases u
          rcases hu : env.unzipResult with eu | u
          · refine ⟨?_, ?_, ?_⟩
            · simp [builderBuild, hs, hc, hz, hd, hu, stateFilePersistedBeforeDownload]
            · intro _
              simp [builderBuild, hs, hc, hz, hd, hu]
            · intro e _ _ _ h4
              exact Except.noConfusion h4
          · cases u
            rcases hm : (if env.seedIsImageFile then Except.ok () else env.movingResult)
                with em | u
            · refine ⟨?_, ?_, ?_⟩
              · simp [builderBuild, hs, hc, hz, hd, hu, hm,
                  stateFilePersistedBeforeDownload]
              · intro _
                simp [builderBuild, hs, hc, hz, hd, hu, hm]
              · intro e _ _ _ h4
                exact Except.noConfusion h4
            · cases u
              rcases hx : env.scriptsResult with ex | u
              · refine ⟨?_, ?_, ?_⟩
                · simp [builderBuild, hs, hc, hz, hd, hu, hm, hx,
                    stateFilePersistedBeforeDownload]
                · intro _
                  simp [builderBuild, hs, hc, hz, hd, hu, hm, hx]
                · intro e _ _ _ h4
                  exact Except.noConfusion h4
              · cases u
                refine ⟨?_, ?_, ?_⟩
                · simp [builderBuild, hs, hc, hz, hd, hu, hm, hx,
                    stateFilePersistedBeforeDownload]
                · intro _
                  simp [builderBuild, hs, hc, hz, hd, hu, hm, hx]
                · intro e _ _ _ h4
                  exact Except.noConfusion h4

/-- Witness for C5: a run whose download stage fails (progress-join
error after a 404 task): the serialize event precedes the download
start, the run returns the download error, and the state file is in
the workspace at return. -/
theorem c5_state_file_persisted_before_download_witness :
    stateFilePersistedBeforeDownload (builderBuild sampleBuildEnv ⟨false⟩).1 = true ∧
    builderBuild sampleBuildEnv ⟨false⟩ =
      ([.imageSeedSet, .checked, .stateFileSerialized, .downloadStageStarted],
       ⟨true⟩, some "progress bar join failed") := by
  have h := c5_state_file_persisted_before_download sampleBuildEnv ⟨false⟩
  exact ⟨h.1, h.2.2 "progress bar join failed" rfl rfl rfl rfl⟩

/-- Helper: one fetch step preserves the invariant (at most two tasks
running, and counter + running + pending accounts for every task). -/
theorem fetchStep_preserves_invariant (total : Nat) (a b : FetchState)
    (h : FetchStep a b)
    (ha : a.running.length ≤ 2 ∧
      a.completed + a.running.length + a.pending.length = total) :
    b.running.length ≤ 2 ∧
      b.completed + b.running.length + b.pending.length = total := by
  cases h with
  | start f rest hp hr =>
    constructor
    · simp only [List.length_cons]
      omega
    · have h2 := ha.2
      rw [hp] at h2
      simp only [List.length_cons] at h2 ⊢
      omega
  | finish l₁ l₂ f hr =>
    have h1 := ha.1
    have h2 := ha.2
    rw [hr] at h1 h2
    simp only [List.length_append, List.length_cons] at h1 h2 ⊢
    omega

/-- Helper: the invariant holds in every reachable fetch state. -/
theorem fetchReachable_invariant (total : Nat) (s t : FetchState)
    (h : FetchReachable s t)
    (hs : s.running.length ≤ 2 ∧
      s.completed + s.running.length + s.pending.length = total) :
    t.running.length ≤ 2 ∧
      t.completed + t.running.length + t.pending.length = total := by
  induction h with
  | refl => exact hs
  | tail _ hstep ih => exact fetchStep_preserves_invariant total _ _ hstep ih

/-- Helper: running every task to completion, one after the other, is
a valid schedule: the final state with everything done is reachable. -/
theorem fetch_run_to_completion :
    ∀ (files : List FileToDownload) (n : Nat),
      Relation.ReflTransGen FetchStep ⟨files, [], n⟩ ⟨[], [], n + files.length⟩ := by
  intro files
  induction files with
  | nil => intro n; simpa using Relation.ReflTransGen.refl
  | cons f rest ih =>
    intro n
    have s1 : FetchStep ⟨f :: rest, [], n⟩ ⟨rest, [f], n⟩ :=
      FetchStep.start ⟨f :: rest, [], n⟩ f rest rfl (by simp)
    have s2 : FetchStep ⟨rest, [f], n⟩ ⟨rest, [], n + 1⟩ :=
      FetchStep.finish ⟨rest, [f], n⟩ [] [] f rfl
    have tail := ih (n + 1)
    have : Relation.ReflTransGen FetchStep ⟨f :: rest, [], n⟩ ⟨[], [], n + 1 + rest.length⟩ :=
      Relation.ReflTransGen.head s1 (Relation.ReflTransGen.head s2 tail)
    simpa [Nat.add_assoc, Nat.add_comm, Nat.add_left_comm] using this

/-- C9: in every state reachable during the concurrent fetch of any
task list, at most 2 tasks are running simultaneously; when all tasks
have been handed out and finished, the aggregate counter equals the
number of tasks; and every scheduling step either completes one task
(advancing the counter by exactly one) or starts one (leaving the
counter unchanged) — the counter advances only on task completion. -/
theorem c9_bounded_concurrency_and_progress (files : List FileToDownload)
    (s : FetchState) (h : FetchReachable (initFetchState files) s) :
    s.running.length ≤ 2 ∧
    (s.pending = [] → s.running = [] → s.completed = files.length) ∧
    (∀ a b : FetchState, FetchStep a b →
      (b.completed = a.completed + 1 ∧ b.running.length + 1 = a.running.length) ∨
      (b.completed = a.completed ∧ b.running.length = a.running.length + 1)) := by
  have inv := fetchReachable_invariant files.length (initFetchState files) s h
    (by simp [initFetchState])
  refine ⟨inv.1, ?_, ?_⟩
  · intro hp hr
    have h2 := inv.2
    rw [hp, hr] at h2
    simpa using h2
  · intro a b hab
    cases hab with
    | start f rest hp hr => right; simp
    | finish l₁ l₂ f hr =>
      left
      refine ⟨rfl, ?_⟩
      rw [hr]
      simp only [List.length_append, List.length_cons]
      omega

/-- Witness for C9: the five-task scenario, run to completion: the
final state (reached by an explicit schedule) has nothing running —
within the bound of 2 — and its counter is exactly 5, the number of
tasks. -/
theorem c9_bounded_concurrency_and_progress_witness :
    (FetchState.mk [] [] 5).running.length ≤ 2 ∧
    (FetchState.mk [] [] 5).completed = fetchFiles5.length := by
  have hreach : FetchReachable (initFetchState fetchFiles5) ⟨[], [], 5⟩ :=
    fetch_run_to_completion fetchFiles5 0
  have h := c9_bounded_concurrency_and_progress fetchFiles5 ⟨[], [], 5⟩ hreach
  exact ⟨h.1, h.2.1 rfl rfl⟩

end Maestro
